import Mathlib

/-!
Shallow embedding of the Vylarc credit-ledger code
(`src/app/services/credit_service.py`, `src/app/routes/credits.py`,
`src/app/routes/nexus.py`, `src/app/config.py`, `src/app/models/models.py`)
and proofs of the frozen claims about it.

Conventions of the embedding:
* Database rows become Lean structures; a database session/state is a `DB`
  record of row lists.  UUIDs are modelled as `Nat`, monetary amounts as `Int`
  (no claim depends on their arithmetic), SQL `Integer` balances as `Int`.
* Python exceptions become the `PyError` sum; a route/service call returns
  `Except PyError result`.  An `Except.error` outcome models the transaction
  being rolled back: no state is returned, so nothing is committed.
* Python name resolution matters here: `credit_service.py` uses the bare name
  `selectinload` without importing it, so evaluating the first query
  expression raises `NameError` before any database access.  The embedding
  makes this explicit by parameterising `check_and_deduct_credits` over the
  list of module-level names actually bound in the module
  (`creditServiceImports`, transcribed from the import block of the source).
* `pydantic` settings: accessing an undeclared field of the `Settings`
  instance raises `AttributeError`.  `settingsFields` transcribes the fields
  declared by `class Settings` in `src/app/config.py`; `ADMIN_EMAIL` is not
  among them, so the admin-bypass comparison can never be reached, which the
  embedding records with an unreachable (provably dead) branch.
-/

namespace Vylarc

/-- Python-level failure outcomes that abort the surrounding transaction.
`httpException c d` covers both FastAPI `HTTPException(c, d)` and the
`CreditException(d)` subclass, which always uses status code 402. -/
inductive PyError where
  | nameError (name : String)
  | attributeError (attr : String)
  | httpException (statusCode : Nat) (detail : String)
deriving DecidableEq, Repr

/-- `models.User`: only the columns the credit paths read. -/
structure User where
  id : Nat
  email : String
deriving DecidableEq, Repr

/-- `models.UserCredits`: one row per user (`user_id` unique), integer balance. -/
structure UserCredits where
  user_id : Nat
  balance : Int
deriving DecidableEq, Repr

/-- `models.BillingRecord`: append-only billing log row. -/
structure BillingRecord where
  user_id : Nat
  credits_added : Int
  amount_paid : Int
  payment_method : String
  transaction_id : String
deriving DecidableEq, Repr

/-- `models.ProjectFile` (only the `filename` column is read by the build path). -/
structure ProjectFile where
  filename : String
deriving DecidableEq, Repr

/-- `models.Project` with its `files` relationship inlined. -/
structure Project where
  id : Nat
  user_id : Nat
  status : String
  files : List ProjectFile
deriving DecidableEq, Repr

/-- The database state visible to the credit paths. -/
structure DB where
  users : List User
  user_credits : List UserCredits
  billing_records : List BillingRecord
  projects : List Project
deriving DecidableEq, Repr

/-- `db.scalar(select(UserCredits).where(UserCredits.user_id == uid))`. -/
def findCredits (db : DB) (uid : Nat) : Option UserCredits :=
  db.user_credits.find? (fun c => c.user_id == uid)

/-- `db.scalar(select(User).where(User.id == uid))`; also the lazy load of the
`UserCredits.user` relationship. -/
def findUser (db : DB) (uid : Nat) : Option User :=
  db.users.find? (fun u => u.id == uid)

/-- `db.execute(update(UserCredits).where(user_id == uid).values(balance=b))`. -/
def setBalance (db : DB) (uid : Nat) (b : Int) : DB :=
  { db with
    user_credits :=
      db.user_credits.map (fun c =>
        if c.user_id == uid then { c with balance := b } else c) }

/-- `db.add(BillingRecord(...))` (flushed into the pending transaction). -/
def addBillingRecord (db : DB) (r : BillingRecord) : DB :=
  { db with billing_records := db.billing_records ++ [r] }

/-- The module-level names bound in `src/app/services/credit_service.py`,
transcribed from its import block and top-level definitions.  Note that
`selectinload` is absent: the module never imports it. -/
def creditServiceImports : List String :=
  ["logging", "UUID", "Session", "select", "update", "HTTPException",
   "status", "models", "get_settings", "settings", "CREDIT_COSTS",
   "CreditException", "check_and_deduct_credits", "grant_credits_to_user"]

/-- The fields declared by `class Settings(BaseSettings)` in
`src/app/config.py`.  `ADMIN_EMAIL` is not declared, so
`settings.ADMIN_EMAIL` raises `AttributeError`. -/
def settingsFields : List String :=
  ["DATABASE_URL", "PUBLIC_BASE_URL", "ENCRYPTION_KEY", "FLASK_SECRET_KEY",
   "GEMINI_API_KEY", "OPENAI_API_KEY", "GOOGLE_MAPS_API_KEY",
   "WORDPRESS_SECRET_KEY", "GOOGLE_CLIENT_ID", "GOOGLE_CLIENT_SECRET",
   "GOOGLE_REDIRECT_URI", "JWT_ALGORITHM", "ACCESS_TOKEN_EXPIRE_MINUTES"]

/-- `status.HTTP_402_PAYMENT_REQUIRED`, the status code every
`CreditException` carries. -/
def HTTP_402_PAYMENT_REQUIRED : Nat := 402

namespace credit_service

/-- `CREDIT_COSTS` from `credit_service.py`: the static cost of each metered
action type. -/
def CREDIT_COSTS : List (String × Int) :=
  [("CODE_RUN", 5), ("FILE_UPLOAD", 5), ("EMAIL_SEND", 10),
   ("CALENDAR_CREATE", 20), ("CODE_GENERATE", 50), ("CODE_ANALYZE", 50),
   ("EMAIL_DRAFT", 50), ("DOC_ANALYZE", 75), ("CALL_PER_MINUTE", 100),
   ("FORM_CREATE", 100), ("SHEET_CREATE", 100), ("SLIDES_CREATE", 200)]

/-- Detail string of the insufficient-funds `CreditException`. -/
def insufficientDetail (cost balance : Int) : String :=
  "Insufficient credits. This action costs " ++ toString cost ++
  " credits, but you only have " ++ toString balance ++ "."

/-- The part of `check_and_deduct_credits` after the first fetch and the
admin-bypass condition: the `cost == 0` early return, the locked re-fetch,
the balance check and the deduction. -/
def deduct_after_bypass (db : DB) (user_id : Nat) (cost : Int)
    (credits : UserCredits) : Except PyError (DB × UserCredits) :=
  if cost == 0 then
    -- free action: no lock, balance unchanged
    .ok (db, credits)
  else
    -- re-fetch with `with_for_update()`; the state is unchanged so the same
    -- row (or absence) is observed
    match findCredits db user_id with
    | none =>
        .error (.httpException HTTP_402_PAYMENT_REQUIRED
          "User credit account not found during lock.")
    | some credits_locked =>
        if credits_locked.balance < cost then
          .error (.httpException HTTP_402_PAYMENT_REQUIRED
            (insufficientDetail cost credits_locked.balance))
        else
          let new_balance := credits_locked.balance - cost
          .ok (setBalance db user_id new_balance,
               { credits_locked with balance := new_balance })

/-- `check_and_deduct_credits(db, user_id, cost, action_type)` from
`credit_service.py`, under Python evaluation order.

`env` is the set of module-level names in scope; the source runs with
`creditServiceImports`.  The first statement builds
`select(...).options(selectinload(...))`, so the bare name `selectinload`
is resolved before any database access; with the module's actual imports
this raises `NameError` immediately.

Were the name bound, the fetched row's truthiness is checked, then the
admin-bypass condition `credits.user and credits.user.email ==
settings.ADMIN_EMAIL` is evaluated left to right: when the related `User`
row exists, `settings.ADMIN_EMAIL` is read, and since `Settings` declares
no such field this raises `AttributeError`; the equality comparison itself
is dead code (the unreachable branch below). -/
def check_and_deduct_credits (env : List String) (db : DB) (user_id : Nat)
    (cost : Int) (_action_type : String) : Except PyError (DB × UserCredits) :=
  if "selectinload" ∈ env then
    match findCredits db user_id with
    | none =>
        .error (.httpException HTTP_402_PAYMENT_REQUIRED
          "User credit account not found.")
    | some credits =>
        match findUser db user_id with
        | some _u =>
            -- `credits.user` is truthy: evaluate `settings.ADMIN_EMAIL`
            if h : "ADMIN_EMAIL" ∈ settingsFields then
              absurd h (by decide)
            else
              .error (.attributeError "ADMIN_EMAIL")
        | none =>
            -- `credits.user` is falsy: the bypass condition short-circuits
            deduct_after_bypass db user_id cost credits
  else
    .error (.nameError "selectinload")

/-- `grant_credits_to_user` from `credit_service.py`: logs a billing record,
then locks (or, if absent, auto-heal-creates) the credit row and adds
`credits_to_add`; returns `true`.  No idempotency check of any kind is made
on `transaction_id`. -/
def grant_credits_to_user (db : DB) (user_id : Nat) (credits_to_add : Int)
    (amount_paid : Int) (payment_method : String) (transaction_id : String) :
    DB × Bool :=
  let db1 := addBillingRecord db
    { user_id := user_id, credits_added := credits_to_add,
      amount_paid := amount_paid, payment_method := payment_method,
      transaction_id := transaction_id }
  match findCredits db1 user_id with
  | some credits =>
      let new_balance := credits.balance + credits_to_add
      (setBalance db1 user_id new_balance, true)
  | none =>
      -- auto-heal: create the row with balance 0, then add
      let db2 := { db1 with user_credits := db1.user_credits ++ [⟨user_id, 0⟩] }
      let new_balance := (0 : Int) + credits_to_add
      (setBalance db2 user_id new_balance, true)

end credit_service

namespace routes

/-- `CreditAddRequest` from `src/app/schemas/credits.py`: `credits_added` is a
bare `int` with no bound, so any integer — negative included — validates.
(The optional fields are modelled by their effective string values; no claim
depends on them being absent.) -/
structure CreditAddRequest where
  user_id : Nat
  credits_added : Int
  amount_paid_decimal : Int
  payment_method : String := "Google Play"
  transaction_id : String
deriving DecidableEq, Repr

/-- `SKU_TO_CREDITS` from `src/app/routes/credits.py`. -/
def SKU_TO_CREDITS : List (String × Int) :=
  [("vylarc_2000_credits", 2000), ("vylarc_10000_credits", 10000),
   ("vylarc_30000_credits", 30000), ("vylarc_launch_monthly", 5000),
   ("vylarc_pro_monthly", 15000), ("vylarc_dynamics_monthly", 50000)]

/-- `grant_credits_to_user` from `src/app/routes/credits.py` — a distinct
function from the service-layer one of the same name, and the one the
`/credits/add` and `/credits/grant_purchase` routes actually call.  It has
no auto-heal: when the credit row is missing it calls `db.rollback()`
(discarding the pending billing record) and returns `False`. -/
def grant_credits_to_user (db : DB) (user_id : Nat) (credits_to_add : Int)
    (amount_paid : Int) (payment_method : String) (transaction_id : String) :
    DB × Bool :=
  let db1 := addBillingRecord db
    { user_id := user_id, credits_added := credits_to_add,
      amount_paid := amount_paid, payment_method := payment_method,
      transaction_id := transaction_id }
  match findCredits db1 user_id with
  | none =>
      -- db.rollback(): the pending billing record is discarded
      (db, false)
  | some credits =>
      let new_balance := credits.balance + credits_to_add
      (setBalance db1 user_id new_balance, true)

/-- `GET /credits/balance` (`get_credit_balance` in `routes/credits.py`):
returns the balance of the current user's credit row, and raises
`HTTPException(404, "Credit account not found.")` when that row is absent. -/
def get_credit_balance (db : DB) (current_user_id : Nat) :
    Except PyError Int :=
  match findCredits db current_user_id with
  | none => .error (.httpException 404 "Credit account not found.")
  | some credits => .ok credits.balance

/-- `POST /credits/add` (`add_credits` in `routes/credits.py`).  Calls the
route-level grant; on success commits and re-queries the billing record.
Every exception raised inside the `try` block — the 404 for a missing
credit account included — is caught by the blanket `except`, rolled back
and re-surfaced as `HTTPException(500, "Failed to update credit
balance.")`. -/
def add_credits (db : DB) (payload : CreditAddRequest) :
    Except PyError (DB × BillingRecord) :=
  match grant_credits_to_user db payload.user_id payload.credits_added
      payload.amount_paid_decimal payload.payment_method
      payload.transaction_id with
  | (db1, true) =>
      -- db.commit(); then fetch the new record to return it
      match db1.billing_records.find? (fun r =>
          r.user_id == payload.user_id &&
          r.transaction_id == payload.transaction_id) with
      | some record => .ok (db1, record)
      | none =>
          -- raise HTTPException(404, ...) — caught by the except clause
          .error (.httpException 500 "Failed to update credit balance.")
  | (_, false) =>
      -- raise HTTPException(404, ...) inside the try — caught, rolled back,
      -- re-raised as a 500
      .error (.httpException 500 "Failed to update credit balance.")

/-- Python's `str.lower()` (restricted to the ASCII range the code relies on),
character by character. -/
def pyLower (s : String) : String := ⟨s.data.map Char.toLower⟩

/-- `PurchasePayload` of the `/credits/grant_purchase` webhook. -/
structure PurchasePayload where
  email : String
  sku : String
  order_id : String
  amount_paid_decimal : Int
  payment_method : Option String := none
deriving DecidableEq, Repr

/-- `POST /credits/grant_purchase` (`grant_credits_from_purchase` in
`routes/credits.py`): the WooCommerce webhook.  Validates the shared
secret, finds the user by lowercased email, maps the SKU to a credit
amount, and calls the route-level grant.  As in `add_credits`, the 404
raised when the grant returns `False` is swallowed by the blanket `except`
and surfaced as a 500. -/
def grant_credits_from_purchase (db : DB) (payload : PurchasePayload)
    (x_wordpress_secret : Option String) (wordpress_secret_key : String) :
    Except PyError (DB × String) :=
  match x_wordpress_secret with
  | none => .error (.httpException 403 "Invalid secret key.")
  | some s =>
    if s = "" ∨ s ≠ wordpress_secret_key then
      .error (.httpException 403 "Invalid secret key.")
    else
      match db.users.find? (fun u => u.email == pyLower payload.email) with
      | none =>
          .error (.httpException 404
            ("User with email " ++ payload.email ++ " not found. Credits " ++
             "not granted. User must register on Vylarc with this email."))
      | some user =>
          match SKU_TO_CREDITS.lookup payload.sku with
          | none =>
              .ok (db, "SKU " ++ payload.sku ++
                " is not a Vylarc credit product. No credits added.")
          | some credits_to_add =>
              if credits_to_add == 0 then
                -- `if not credits_to_add` also treats 0 as falsy
                .ok (db, "SKU " ++ payload.sku ++
                  " is not a Vylarc credit product. No credits added.")
              else
                match grant_credits_to_user db user.id credits_to_add
                    payload.amount_paid_decimal
                    (payload.payment_method.getD "WooCommerce")
                    payload.order_id with
                | (db1, true) =>
                    .ok (db1, "Successfully granted " ++
                      toString credits_to_add ++ " credits to " ++
                      payload.email ++ ".")
                | (_, false) =>
                    .error (.httpException 500
                      "Failed to update credit balance.")

end routes

namespace nexus

/-- Response of a successful `execute_build` call. -/
structure BuildResponse where
  status : String
  logs : List String
  artifact_url : String
deriving DecidableEq, Repr

/-- `POST /projects/:id/execute` (`execute_build` in `routes/nexus.py`): the
code-execution (Core Build) handler.  It looks up the project, emits the
build logs, marks the project `completed` and commits.  It never touches
`UserCredits` or `BillingRecord` and never calls
`check_and_deduct_credits`. -/
def execute_build (db : DB) (user_id : Nat) (project_id : Nat) :
    Except PyError (DB × BuildResponse) :=
  match db.projects.find? (fun p => p.id == project_id) with
  | none => .error (.httpException 404 "Project not found")
  | some project =>
      if project.user_id ≠ user_id then
        .error (.httpException 404 "Project not found")
      else
        let logs :=
          ["Initializing Vylarc Core Build Environment...",
           "Allocating Sandbox (2 CPU, 1GB RAM)...",
           "Mounting File System..."] ++
          project.files.map (fun f => "> Compiling " ++ f.filename ++ "...") ++
          ["Running Tests... [PASS]",
           "Build Successful. Artifact generated."]
        let db1 := { db with
          projects := db.projects.map (fun p =>
            if p.id == project_id then { p with status := "completed" }
            else p) }
        .ok (db1,
          { status := "success", logs := logs,
            artifact_url := "https://vylarc.com/api/download/mock_artifact.zip" })

end nexus

/-! ### Concrete database fixtures used by counterexamples and witnesses -/

/-- A database with no rows at all. -/
def emptyDB : DB := ⟨[], [], [], []⟩

/-- One user with a credit row of balance 10. -/
def dbBal10 : DB := ⟨[⟨1, "user@x.com"⟩], [⟨1, 10⟩], [], []⟩

/-- One user with a credit row of balance 0. -/
def dbGrant0 : DB := ⟨[⟨1, "u@x.com"⟩], [⟨1, 0⟩], [], []⟩

/-- State after one grant of 100 credits with transaction id `txn_1`. -/
def dbGrant1 : DB :=
  (credit_service.grant_credits_to_user dbGrant0 1 100 500 "WooCommerce" "txn_1").1

/-- State after a second, identical grant with the same transaction id. -/
def dbGrant2 : DB :=
  (credit_service.grant_credits_to_user dbGrant1 1 100 500 "WooCommerce" "txn_1").1

/-- A user whose email is the admin address, with a credit row of balance 50. -/
def dbAdmin : DB := ⟨[⟨1, "admin@vylarc.com"⟩], [⟨1, 50⟩], [], []⟩

/-- A registered user with no credit row. -/
def dbNoCredits : DB := ⟨[⟨1, "buyer@x.com"⟩], [], [], []⟩

/-- A user with zero balance owning one project with one file. -/
def dbBuild : DB :=
  ⟨[⟨1, "dev@x.com"⟩], [⟨1, 0⟩], [], [⟨10, 1, "new", [⟨"main.py"⟩]⟩]⟩

/-! ### Helper lemmas about the embedded database primitives -/

/-- `find?` skips a prefix on which it returns `none`. -/
lemma find?_append_none {α : Type} (p : α → Bool) (l₁ l₂ : List α)
    (h : l₁.find? p = none) : (l₁ ++ l₂).find? p = l₂.find? p := by
  induction l₁ with
  | nil => rfl
  | cons x xs ih =>
      cases hx : p x with
      | true => simp [List.find?, hx] at h
      | false =>
          simp only [List.find?, hx] at h
          simpa [List.find?, hx] using ih h

/-- Updating the balance of `uid` commutes with looking `uid` up. -/
lemma find?_update_balance (l : List UserCredits) (uid : Nat) (nb : Int) :
    (l.map (fun c => if c.user_id == uid then { c with balance := nb } else c)).find?
        (fun c => c.user_id == uid)
      = (l.find? (fun c => c.user_id == uid)).map
          (fun c => { c with balance := nb }) := by
  induction l with
  | nil => rfl
  | cons x xs ih =>
      cases hx : (x.user_id == uid) with
      | true => simp [List.find?, hx]
      | false => simpa [List.find?, hx] using ih

/-- `setBalance` seen through `findCredits`. -/
lemma findCredits_setBalance (db : DB) (uid : Nat) (nb : Int) :
    findCredits (setBalance db uid nb) uid
      = (findCredits db uid).map (fun c => { c with balance := nb }) :=
  find?_update_balance db.user_credits uid nb

/-- Adding a billing record does not change the credit rows. -/
lemma findCredits_addBillingRecord (db : DB) (r : BillingRecord) (uid : Nat) :
    findCredits (addBillingRecord db r) uid = findCredits db uid := rfl

/-- The route-level grant on a missing credit row rolls back and returns
`false`. -/
lemma routes_grant_missing (db : DB) (uid : Nat) (c amt : Int) (pm tid : String)
    (h : findCredits db uid = none) :
    routes.grant_credits_to_user db uid c amt pm tid = (db, false) := by
  unfold routes.grant_credits_to_user
  simp only [findCredits_addBillingRecord, h]

/-- The route-level grant on an existing credit row appends the billing record
and writes the increased balance. -/
lemma routes_grant_found (db : DB) (uid : Nat) (c amt : Int) (pm tid : String)
    (credits : UserCredits) (h : findCredits db uid = some credits) :
    routes.grant_credits_to_user db uid c amt pm tid =
      (setBalance (addBillingRecord db ⟨uid, c, amt, pm, tid⟩) uid
        (credits.balance + c), true) := by
  unfold routes.grant_credits_to_user
  simp only [findCredits_addBillingRecord, h]

/-- `setBalance` leaves the billing log unchanged. -/
lemma billing_setBalance (db : DB) (uid : Nat) (nb : Int) :
    (setBalance db uid nb).billing_records = db.billing_records := rfl

/-- `addBillingRecord` appends exactly one record. -/
lemma billing_addBillingRecord (db : DB) (r : BillingRecord) :
    (addBillingRecord db r).billing_records = db.billing_records ++ [r] := rfl

/-- The service-level grant on an existing credit row appends the billing
record and writes the increased balance. -/
lemma service_grant_found (db : DB) (uid : Nat) (c amt : Int) (pm tid : String)
    (credits : UserCredits) (h : findCredits db uid = some credits) :
    credit_service.grant_credits_to_user db uid c amt pm tid =
      (setBalance (addBillingRecord db ⟨uid, c, amt, pm, tid⟩) uid
        (credits.balance + c), true) := by
  unfold credit_service.grant_credits_to_user
  simp only [findCredits_addBillingRecord, h]

/-- The service-level grant on a missing credit row auto-heals: it appends the
billing record, inserts a credit row with balance 0, and writes `0 + c`. -/
lemma service_grant_missing (db : DB) (uid : Nat) (c amt : Int) (pm tid : String)
    (h : findCredits db uid = none) :
    credit_service.grant_credits_to_user db uid c amt pm tid =
      (setBalance
        { db with
          user_credits := db.user_credits ++ [⟨uid, 0⟩],
          billing_records := db.billing_records ++ [⟨uid, c, amt, pm, tid⟩] }
        uid ((0 : Int) + c), true) := by
  unfold credit_service.grant_credits_to_user
  simp only [findCredits_addBillingRecord, h]
  rfl

/-- `setBalance` with a nonnegative value keeps every balance nonnegative. -/
lemma setBalance_keeps_nonneg (db : DB) (uid : Nat) (nb : Int)
    (hdb : ∀ c ∈ db.user_credits, 0 ≤ c.balance) (hnb : 0 ≤ nb) :
    ∀ c ∈ (setBalance db uid nb).user_credits, 0 ≤ c.balance := by
  intro c hc
  simp only [setBalance, List.mem_map] at hc
  obtain ⟨a, ha, rfl⟩ := hc
  by_cases hau : (a.user_id == uid) = true
  · rw [if_pos hau]
    exact hnb
  · rw [if_neg hau]
    exact hdb a ha

/-- Decidable equality of call outcomes, so that concrete counterexamples can
be checked by `decide`. -/
instance {ε α : Type} [DecidableEq ε] [DecidableEq α] :
    DecidableEq (Except ε α) := fun a b =>
  match a, b with
  | .error e, .error f =>
      if h : e = f then isTrue (congrArg Except.error h)
      else isFalse (fun c => h (Except.error.inj c))
  | .error _, .ok _ => isFalse (fun c => Except.noConfusion c)
  | .ok _, .error _ => isFalse (fun c => Except.noConfusion c)
  | .ok x, .ok y =>
      if h : x = y then isTrue (congrArg Except.ok h)
      else isFalse (fun c => h (Except.ok.inj c))

/-! ### Claims -/

/-- C3: for every database state and every argument tuple,
`check_and_deduct_credits` raises `NameError` on the unresolved name
`selectinload` before reading or modifying any balance — the module never
imports that name, and `ADMIN_EMAIL` is not a declared `Settings` field.
Since the call errors, no balance is ever returned and no account is ever
decremented. -/
theorem check_and_deduct_always_name_error :
    (∀ db uid cost act,
        credit_service.check_and_deduct_credits creditServiceImports db uid cost act
          = .error (.nameError "selectinload")) ∧
    "selectinload" ∉ creditServiceImports ∧
    "ADMIN_EMAIL" ∉ settingsFields := by
  refine ⟨fun db uid cost act => ?_, by decide, by decide⟩
  unfold credit_service.check_and_deduct_credits
  rw [if_neg (by decide)]

/-- C4: the boundary behaviour claimed for `debit` never occurs: with
balance 10, both `cost = 10` (claimed: success with balance 0) and
`cost = 11` (claimed: `InsufficientFunds` carrying required/available)
instead raise `NameError` on `selectinload` before any balance is read. -/
theorem debit_boundary_name_error :
    credit_service.check_and_deduct_credits creditServiceImports dbBal10 1 10 "CODE_RUN"
      = .error (.nameError "selectinload") ∧
    credit_service.check_and_deduct_credits creditServiceImports dbBal10 1 11 "CODE_RUN"
      = .error (.nameError "selectinload") := ⟨rfl, rfl⟩

/-- C7: the admin bypass never returns the balance: with the module's actual
imports the call raises `NameError` on `selectinload`; `ADMIN_EMAIL` is not
a declared `Settings` field; and even with `selectinload` bound, the bypass
condition raises `AttributeError` on `settings.ADMIN_EMAIL` before any
balance can be returned or audit record produced. -/
theorem admin_bypass_never_returns :
    credit_service.check_and_deduct_credits creditServiceImports dbAdmin 1 100 "CALL_PER_MINUTE"
      = .error (.nameError "selectinload") ∧
    "ADMIN_EMAIL" ∉ settingsFields ∧
    credit_service.check_and_deduct_credits ("selectinload" :: creditServiceImports)
        dbAdmin 1 100 "CALL_PER_MINUTE"
      = .error (.attributeError "ADMIN_EMAIL") := ⟨rfl, by decide, rfl⟩

/-- C9 counterexample: `debit` with `cost = 0` on an existing account does
not return the balance unchanged — it raises `NameError` on
`selectinload` like every other call. -/
theorem debit_zero_cost_name_error_cex :
    credit_service.check_and_deduct_credits creditServiceImports dbBal10 1 0 "EMAIL_SEND"
      = .error (.nameError "selectinload") ∧
    credit_service.check_and_deduct_credits creditServiceImports dbBal10 1 0 "EMAIL_SEND"
      ≠ .ok (dbBal10, ⟨1, 10⟩) := ⟨rfl, by decide⟩

/-- C9 amended: every `debit` call with `cost = 0` raises `NameError`
before the free-action branch can run; and in the code as written (with the
name `selectinload` bound), a missing account is signalled by
`CreditException` carrying HTTP status 402 — the same payment-required
class as insufficient funds, not a distinct `AccountNotFound` error. -/
theorem debit_missing_account_is_402 :
    (∀ db uid act,
        credit_service.check_and_deduct_credits creditServiceImports db uid 0 act
          = .error (.nameError "selectinload")) ∧
    (∀ env db uid cost act, findCredits db uid = none →
        credit_service.check_and_deduct_credits ("selectinload" :: env) db uid cost act
          = .error (.httpException HTTP_402_PAYMENT_REQUIRED
              "User credit account not found.")) ∧
    HTTP_402_PAYMENT_REQUIRED = 402 := by
  refine ⟨fun db uid act => ?_, fun env db uid cost act h => ?_, rfl⟩
  · unfold credit_service.check_and_deduct_credits
    rw [if_neg (by decide)]
  · unfold credit_service.check_and_deduct_credits
    rw [if_pos (List.mem_cons_self _ _), h]

/-- Witness for C9 amended, at the empty database. -/
theorem debit_missing_account_is_402_witness :
    credit_service.check_and_deduct_credits creditServiceImports emptyDB 3 0 "CODE_RUN"
      = .error (.nameError "selectinload") ∧
    credit_service.check_and_deduct_credits ("selectinload" :: creditServiceImports)
        emptyDB 3 7 "CODE_RUN"
      = .error (.httpException HTTP_402_PAYMENT_REQUIRED
          "User credit account not found.") :=
  ⟨debit_missing_account_is_402.1 emptyDB 3 "CODE_RUN",
   debit_missing_account_is_402.2.1 creditServiceImports emptyDB 3 7 "CODE_RUN" rfl⟩

/-- C6 counterexample: a balance read for a user with no credit row raises
`HTTPException(404)` — it does not return a zero balance. -/
theorem get_balance_missing_404_cex :
    routes.get_credit_balance emptyDB 7
      = .error (.httpException 404 "Credit account not found.") ∧
    routes.get_credit_balance emptyDB 7 ≠ .ok 0 := ⟨rfl, by decide⟩

/-- C6 amended: for every database state, a balance read for a user whose
credit row is absent raises `HTTPException(404, "Credit account not
found.")` instead of returning zero. -/
theorem get_balance_missing_raises_404 (db : DB) (uid : Nat)
    (h : findCredits db uid = none) :
    routes.get_credit_balance db uid
      = .error (.httpException 404 "Credit account not found.") := by
  unfold routes.get_credit_balance
  rw [h]

/-- Witness for C6 amended, at the empty database. -/
theorem get_balance_missing_raises_404_witness :
    routes.get_credit_balance emptyDB 7
      = .error (.httpException 404 "Credit account not found.") :=
  get_balance_missing_raises_404 emptyDB 7 rfl

/-- C1 counterexample: starting from balance 0, two grants with the identical
transaction id `txn_1` change the balance twice (0 → 100 → 200) and append
two billing records: the second call is not a no-op. -/
theorem grant_second_call_not_noop_cex :
    (findCredits dbGrant1 1).map UserCredits.balance = some 100 ∧
    (findCredits dbGrant2 1).map UserCredits.balance = some 200 ∧
    dbGrant2 ≠ dbGrant1 ∧
    dbGrant2.billing_records.length = 2 := by decide

/-- C1 amended: `grant_credits_to_user` performs no idempotency check on the
external transaction id: every call on an existing account — whether or not
a billing record with the same `transaction_id` already exists — adds
`credits_to_add` to the balance and appends one more billing record. -/
theorem grant_always_adds (db : DB) (uid : Nat) (c amt : Int)
    (pm tid : String) (b : Int)
    (h : (findCredits db uid).map UserCredits.balance = some b) :
    (credit_service.grant_credits_to_user db uid c amt pm tid).2 = true ∧
    (findCredits (credit_service.grant_credits_to_user db uid c amt pm tid).1 uid).map
        UserCredits.balance = some (b + c) ∧
    (credit_service.grant_credits_to_user db uid c amt pm tid).1.billing_records.length
      = db.billing_records.length + 1 := by
  cases hc : findCredits db uid with
  | none => rw [hc] at h; exact absurd h (by simp)
  | some credits =>
      rw [hc] at h
      have hb : credits.balance = b := Option.some.inj h
      rw [service_grant_found db uid c amt pm tid credits hc]
      refine ⟨rfl, ?_, ?_⟩
      · rw [findCredits_setBalance, findCredits_addBillingRecord, hc]
        simp [hb]
      · simp [setBalance, addBillingRecord]

/-- Witness for C1 amended: one grant on the balance-0 fixture. -/
theorem grant_always_adds_witness :
    (credit_service.grant_credits_to_user dbGrant0 1 100 500 "WooCommerce" "txn_1").2
      = true ∧
    (findCredits (credit_service.grant_credits_to_user dbGrant0 1 100 500
        "WooCommerce" "txn_1").1 1).map UserCredits.balance = some (0 + 100) ∧
    (credit_service.grant_credits_to_user dbGrant0 1 100 500 "WooCommerce"
        "txn_1").1.billing_records.length = dbGrant0.billing_records.length + 1 :=
  grant_always_adds dbGrant0 1 100 500 "WooCommerce" "txn_1" 0 rfl

/-- C2 counterexample: with a balance of 0 — below the static cost of every
action type, in particular `CODE_RUN` at 5 — the code-execution handler
still performs the chargeable work: it succeeds, marks the project
completed, and leaves the credit and billing tables untouched, because no
handler ever calls `check_and_deduct_credits`. -/
theorem execute_build_runs_without_debit_cex :
    nexus.execute_build dbBuild 1 10
      = .ok ({ dbBuild with projects := [⟨10, 1, "completed", [⟨"main.py"⟩]⟩] },
             { status := "success",
               logs := ["Initializing Vylarc Core Build Environment...",
                        "Allocating Sandbox (2 CPU, 1GB RAM)...",
                        "Mounting File System...",
                        "> Compiling main.py...",
                        "Running Tests... [PASS]",
                        "Build Successful. Artifact generated."],
               artifact_url := "https://vylarc.com/api/download/mock_artifact.zip" }) ∧
    (findCredits dbBuild 1).map UserCredits.balance = some 0 ∧
    credit_service.CREDIT_COSTS.lookup "CODE_RUN" = some 5 ∧
    (0 : Int) < 5 := ⟨rfl, rfl, rfl, by decide⟩

/-- C2 amended: the code-execution handler performs the chargeable work
unconditionally: for every database state in which the project exists and
is owned by the caller — regardless of the account balance — the build
succeeds and the credit and billing tables are unchanged; no debit is ever
attempted. -/
theorem execute_build_no_credit_check (db : DB) (uid pid : Nat) (p : Project)
    (hfind : db.projects.find? (fun q => q.id == pid) = some p)
    (hown : p.user_id = uid) :
    (nexus.execute_build db uid pid).map
        (fun pr => (pr.1.user_credits, pr.1.billing_records, pr.2.status))
      = .ok (db.user_credits, db.billing_records, "success") := by
  unfold nexus.execute_build
  rw [hfind]
  simp [hown, Except.map]

/-- Witness for C2 amended, at the zero-balance build fixture. -/
theorem execute_build_no_credit_check_witness :
    (nexus.execute_build dbBuild 1 10).map
        (fun pr => (pr.1.user_credits, pr.1.billing_records, pr.2.status))
      = .ok (dbBuild.user_credits, dbBuild.billing_records, "success") :=
  execute_build_no_credit_check dbBuild 1 10 ⟨10, 1, "new", [⟨"main.py"⟩]⟩ rfl rfl

/-- C5 counterexample: the `/credits/add` endpoint accepts a negative
`credits_added` (the schema declares a bare `int`), and committing a grant
of −1 on a zero-balance account leaves a committed balance of −1 < 0. -/
theorem add_credits_negative_balance_cex :
    (routes.add_credits dbGrant0 ⟨1, -1, 0, "Google Play", "neg_1"⟩).map
        (fun pr => (findCredits pr.1 1).map UserCredits.balance)
      = .ok (some (-1)) ∧ (-1 : Int) < 0 := ⟨rfl, by decide⟩

/-- C5 amended: `balance ≥ 0` is not an invariant of the exposed operations —
`/credits/add` passes the caller-supplied `credits_added` straight through —
but it is preserved whenever the granted amount is nonnegative: if every
balance is nonnegative before a successful `add_credits`, and
`credits_added ≥ 0`, every balance is nonnegative in the committed state. -/
theorem add_credits_nonneg_grants_preserve_invariant (db : DB)
    (payload : routes.CreditAddRequest)
    (hdb : ∀ c ∈ db.user_credits, 0 ≤ c.balance)
    (hpos : 0 ≤ payload.credits_added) :
    ∀ db1 r, routes.add_credits db payload = .ok (db1, r) →
      ∀ c ∈ db1.user_credits, 0 ≤ c.balance := by
  intro db1 r heq
  cases hfc : findCredits db payload.user_id with
  | none =>
      simp only [routes.add_credits,
        routes_grant_missing db payload.user_id payload.credits_added
          payload.amount_paid_decimal payload.payment_method
          payload.transaction_id hfc] at heq
      exact absurd heq (fun hbad => Except.noConfusion hbad)
  | some credits =>
      have hcred : credits ∈ db.user_credits := List.mem_of_find?_eq_some hfc
      have hnb : 0 ≤ credits.balance + payload.credits_added :=
        add_nonneg (hdb credits hcred) hpos
      simp only [routes.add_credits,
        routes_grant_found db payload.user_id payload.credits_added
          payload.amount_paid_decimal payload.payment_method
          payload.transaction_id credits hfc,
        billing_setBalance, billing_addBillingRecord] at heq
      cases hrec : List.find? (fun rec =>
          rec.user_id == payload.user_id &&
          rec.transaction_id == payload.transaction_id)
          (db.billing_records ++
            [{ user_id := payload.user_id, credits_added := payload.credits_added,
               amount_paid := payload.amount_paid_decimal,
               payment_method := payload.payment_method,
               transaction_id := payload.transaction_id }]) with
      | none => rw [hrec] at heq; exact absurd heq (fun hbad => Except.noConfusion hbad)
      | some record =>
          rw [hrec] at heq
          have hdb1 : setBalance (addBillingRecord db
              { user_id := payload.user_id, credits_added := payload.credits_added,
                amount_paid := payload.amount_paid_decimal,
                payment_method := payload.payment_method,
                transaction_id := payload.transaction_id })
              payload.user_id (credits.balance + payload.credits_added) = db1 :=
            congrArg Prod.fst (Except.ok.inj heq)
          rw [← hdb1]
          exact setBalance_keeps_nonneg _ _ _ hdb hnb

/-- Witness for C5 amended: a grant of 5 on the balance-0 fixture leaves the
single committed balance at 5 ≥ 0. -/
theorem add_credits_nonneg_witness :
    (0 : Int) ≤ ({ user_id := 1, balance := 5 } : UserCredits).balance :=
  add_credits_nonneg_grants_preserve_invariant dbGrant0
    ⟨1, 5, 0, "Google Play", "t5"⟩ (by decide) (by decide)
    { dbGrant0 with
      user_credits := [⟨1, 5⟩],
      billing_records := [⟨1, 5, 0, "Google Play", "t5"⟩] }
    ⟨1, 5, 0, "Google Play", "t5"⟩ rfl ⟨1, 5⟩ (by decide)

/-- C8 counterexample: on the `/credits/grant_purchase` webhook path, a grant
for a registered user with no credit row does not auto-heal: the route-level
grant rolls back and the webhook surfaces a 500, leaving no account row
behind (the request names a recognized SKU and a valid secret). -/
theorem webhook_grant_no_autoheal_cex :
    routes.grant_credits_from_purchase dbNoCredits
        ⟨"buyer@x.com", "vylarc_2000_credits", "wc_55", 20, none⟩
        (some "sekret") "sekret"
      = .error (.httpException 500 "Failed to update credit balance.") ∧
    routes.grant_credits_to_user dbNoCredits 1 2000 20 "WooCommerce" "wc_55"
      = (dbNoCredits, false) := ⟨rfl, rfl⟩

/-- C8 amended: only the service-layer grant auto-heals.  For every identity
with no credit row, `credit_service.grant_credits_to_user` creates the row
and leaves it with exactly the granted balance, while the grant defined in
`routes/credits.py` — the one the `/credits/add` and
`/credits/grant_purchase` entry points call — rolls back and returns
`false` instead of creating the row. -/
theorem grant_autoheal_service_only (db : DB) (uid : Nat) (c amt : Int)
    (pm tid : String) (h : findCredits db uid = none) :
    ((credit_service.grant_credits_to_user db uid c amt pm tid).2 = true ∧
     (findCredits (credit_service.grant_credits_to_user db uid c amt pm tid).1 uid).map
        UserCredits.balance = some c) ∧
    routes.grant_credits_to_user db uid c amt pm tid = (db, false) := by
  refine ⟨⟨?_, ?_⟩, routes_grant_missing db uid c amt pm tid h⟩
  · rw [service_grant_missing db uid c amt pm tid h]
  · rw [service_grant_missing db uid c amt pm tid h]
    rw [findCredits_setBalance]
    have h2 : findCredits
        { db with
          user_credits := db.user_credits ++ [⟨uid, 0⟩],
          billing_records := db.billing_records ++ [⟨uid, c, amt, pm, tid⟩] } uid
        = some ⟨uid, 0⟩ := by
      unfold findCredits at h ⊢
      show List.find? (fun x : UserCredits => x.user_id == uid)
          (db.user_credits ++ [(⟨uid, 0⟩ : UserCredits)]) = some ⟨uid, 0⟩
      rw [find?_append_none _ _ _ h]
      simp [List.find?]
    rw [h2]
    simp

/-- Witness for C8 amended, at the no-credit-row fixture. -/
theorem grant_autoheal_service_only_witness :
    ((credit_service.grant_credits_to_user dbNoCredits 1 100 20 "pm" "t").2 = true ∧
     (findCredits (credit_service.grant_credits_to_user dbNoCredits 1 100 20 "pm" "t").1 1).map
        UserCredits.balance = some 100) ∧
    routes.grant_credits_to_user dbNoCredits 1 100 20 "pm" "t"
      = (dbNoCredits, false) :=
  grant_autoheal_service_only dbNoCredits 1 100 20 "pm" "t" rfl

end Vylarc
